import Mathlib

/-!
Shallow embedding of the sonotheia audio-authenticity core
(src/backend/sonotheia_rust): validation, framing/windowing, spectral
utilities, and the three detector algorithms (vacuum, phase,
articulation).  Machine floats are embedded in exact arithmetic: a raw
sample is an `F64` (finite rational, infinity, or NaN) so that
validation can test finiteness; the numeric pipeline downstream of
validation works on the exact rational values.  The transcendental
primitives supplied by the float runtime and the rustfft dependency
(cos, sqrt, atan2, log10, the FFT itself, and float formatting) are
parameters of the embedding, collected in `Prims`; every theorem below
holds for all interpretations of these primitives.
-/

/-- A 64-bit float as seen by validation: NaN, a signed infinity, or a
finite value carried as an exact rational. -/
inductive F64 where
  | nan : F64
  | inf : Bool → F64
  | fin : ℚ → F64
deriving DecidableEq

/-- Embeds f64::is_nan. -/
def F64.isNan : F64 → Bool
  | .nan => true
  | _ => false

/-- Embeds f64::is_infinite. -/
def F64.isInfinite : F64 → Bool
  | .inf _ => true
  | _ => false

/-- The exact value of a finite sample (0 for NaN/infinity, which
validation excludes before any numeric use). -/
def F64.toRat : F64 → ℚ
  | .fin q => q
  | _ => 0

/-- Embeds utils::errors::SensorError. -/
inductive SensorError where
  | InvalidInput : String → SensorError
  | InsufficientData : ℕ → ℕ → SensorError
  | InvalidSampleRate : ℕ → SensorError
  | FftError : String → SensorError
  | Overflow : String → SensorError
  | IndexOutOfBounds : String → SensorError
  | InternalError : String → SensorError
deriving DecidableEq

/-- The Display messages of SensorError (thiserror derive). -/
def SensorError.toMessage : SensorError → String
  | .InvalidInput m => "Invalid input: " ++ m
  | .InsufficientData req got =>
      "Audio data is empty or below minimum length (" ++ toString req
        ++ " samples required, got " ++ toString got ++ ")"
  | .InvalidSampleRate r =>
      "Invalid sample rate: " ++ toString r ++ " Hz (expected 8000-96000 Hz)"
  | .FftError m => "FFT computation failed: " ++ m
  | .Overflow m => "Numeric overflow in " ++ m
  | .IndexOutOfBounds m => "Array index out of bounds: " ++ m
  | .InternalError m => "Internal error: " ++ m

/-- utils::audio::MIN_SAMPLE_RATE. -/
def MIN_SAMPLE_RATE : ℕ := 8000

/-- utils::audio::MAX_SAMPLE_RATE. -/
def MAX_SAMPLE_RATE : ℕ := 96000

/-- utils::audio::MIN_SAMPLES. -/
def MIN_SAMPLES : ℕ := 8

/-- The element-wise finiteness scan of validate_audio_input: the Rust
for-loop over audio.iter().enumerate(), testing is_nan before
is_infinite at each index, starting at index i. -/
def validate_scan : List F64 → ℕ → Except SensorError Unit
  | [], _ => .ok ()
  | sample :: rest, i =>
    if sample.isNan then
      .error (.InvalidInput ("NaN value at sample " ++ toString i))
    else if sample.isInfinite then
      .error (.InvalidInput ("Infinite value at sample " ++ toString i))
    else validate_scan rest (i + 1)

/-- Embeds utils::audio::validate_audio_input. -/
def validate_audio_input (audio : List F64) (sample_rate : ℕ) :
    Except SensorError Unit :=
  if sample_rate < MIN_SAMPLE_RATE ∨ sample_rate > MAX_SAMPLE_RATE then
    .error (.InvalidSampleRate sample_rate)
  else if audio.length < MIN_SAMPLES then
    .error (.InsufficientData MIN_SAMPLES audio.length)
  else validate_scan audio 0

/-- Embeds f64::clamp(lo, hi): if self < lo then lo else if self > hi
then hi else self. -/
def clampQ (x lo hi : ℚ) : ℚ :=
  if x < lo then lo else if x > hi then hi else x

/-- Truncation toward zero, the rounding used by the float % operator. -/
def truncQ (q : ℚ) : ℤ :=
  if 0 ≤ q then ⌊q⌋ else ⌈q⌉

/-- Embeds the f64 % operator (fmod, which is exact on floats):
a - b * trunc(a / b). -/
def fmodQ (a b : ℚ) : ℚ :=
  a - b * (truncQ (a / b) : ℚ)

/-- The exact value of the f64 constant std::f64::consts::PI. -/
def pi64 : ℚ := 884279719003555 / 281474976710656

/-- The exact value of the f64 constant f64::MAX. -/
def f64MAX : ℚ := 2 ^ 1024 - 2 ^ 971

/-- The exact value of the f64 constant f64::EPSILON. -/
def EPSILON : ℚ := 1 / 2 ^ 52

/-- The primitive operations the core takes from the float runtime and
the rustfft crate, as parameters of the exact embedding: cosine, square
root, atan2 (complex argument), log10, the forward FFT (a complex
vector of the same length as its input), and the two-decimal float
formatting used in detail strings. -/
structure Prims where
  cosF : ℚ → ℚ
  sqrtF : ℚ → ℚ
  atan2F : ℚ → ℚ → ℚ
  log10F : ℚ → ℚ
  fftF : List ℚ → List (ℚ × ℚ)
  fmt2F : ℚ → String

/-- Embeds utils::audio::calculate_rms: sqrt of the mean of squares,
0 for empty input. -/
def calculate_rms (p : Prims) (audio : List ℚ) : ℚ :=
  if audio = [] then 0
  else p.sqrtF (((audio.map fun x => x * x).sum) / (audio.length : ℚ))

/-- Embeds utils::audio::apply_hamming_window: elementwise multiply by
0.54 - 0.46*cos(2*pi*i/(n-1)); only the n = 0 case is guarded. -/
def apply_hamming_window (p : Prims) (audio : List ℚ) : List ℚ :=
  if audio.length = 0 then []
  else
    audio.enum.map fun ix =>
      ix.2 * (54 / 100 - 46 / 100
        * p.cosF (2 * pi64 * (ix.1 : ℚ) / ((audio.length : ℚ) - 1)))

/-- The while-loop of utils::audio::frame_audio: collect the slice
[start, start + frame_size) while it fits, advancing start by
hop_size. -/
def frame_loop (audio : List ℚ) (frame_size hop_size : ℕ)
    (hpos : 0 < hop_size) (start : ℕ) : List (List ℚ) :=
  if _h : start + frame_size ≤ audio.length then
    ((audio.drop start).take frame_size)
      :: frame_loop audio frame_size hop_size hpos (start + hop_size)
  else []
termination_by audio.length + 1 - start
decreasing_by omega

/-- Embeds utils::audio::frame_audio. -/
def frame_audio (audio : List ℚ) (frame_size hop_size : ℕ) :
    List (List ℚ) :=
  if _h : frame_size = 0 ∨ hop_size = 0 ∨ audio.length < frame_size then []
  else frame_loop audio frame_size hop_size (by omega) 0

/-- Embeds utils::audio::zero_crossing_rate: fraction of adjacent pairs
whose >= 0.0 sign test differs, 0 for fewer than 2 samples. -/
def zero_crossing_rate (audio : List ℚ) : ℚ :=
  if audio.length < 2 then 0
  else
    let crossings :=
      (audio.zip audio.tail).countP fun w =>
        decide (0 ≤ w.1) != decide (0 ≤ w.2)
    (crossings : ℚ) / ((audio.length - 1 : ℕ) : ℚ)

/-- Embeds utils::fft::compute_fft: error on empty input, otherwise the
forward FFT of the rustfft dependency (a primitive of the embedding). -/
def compute_fft (p : Prims) (audio : List ℚ) :
    Except SensorError (List (ℚ × ℚ)) :=
  if audio = [] then
    .error (.InvalidInput "Cannot compute FFT of empty data")
  else .ok (p.fftF audio)

/-- Embeds utils::fft::magnitude_spectrum: the complex modulus of the
first N/2 + 1 bins. -/
def magnitude_spectrum (p : Prims) (fft_result : List (ℚ × ℚ)) : List ℚ :=
  if fft_result = [] then []
  else
    (fft_result.take (fft_result.length / 2 + 1)).map fun c =>
      p.sqrtF (c.1 * c.1 + c.2 * c.2)

/-- Embeds utils::fft::phase_spectrum: the complex argument
atan2(im, re) of the first N/2 + 1 bins. -/
def phase_spectrum (p : Prims) (fft_result : List (ℚ × ℚ)) : List ℚ :=
  if fft_result = [] then []
  else
    (fft_result.take (fft_result.length / 2 + 1)).map fun c =>
      p.atan2F c.2 c.1

/-- Embeds utils::fft::frequency_bins: bin i maps to
i * sample_rate / n_samples, over the first N/2 + 1 bins. -/
def frequency_bins (n_samples sample_rate : ℕ) : List ℚ :=
  if n_samples = 0 then []
  else
    (List.range (n_samples / 2 + 1)).map fun i =>
      (i : ℚ) * ((sample_rate : ℚ) / (n_samples : ℚ))

/-- Embeds utils::fft::spectral_centroid: magnitude-weighted mean
frequency, 0 when the total magnitude is below f64::EPSILON. -/
def spectral_centroid (magnitudes frequencies : List ℚ) : ℚ :=
  if magnitudes = [] ∨ frequencies = [] then 0
  else
    let min_len := min magnitudes.length frequencies.length
    let weighted_sum :=
      (((magnitudes.take min_len).zip frequencies).map fun mf =>
        mf.1 * mf.2).sum
    let total_magnitude := (magnitudes.take min_len).sum
    if total_magnitude < EPSILON then 0
    else weighted_sum / total_magnitude

/-- Embeds utils::fft::spectral_bandwidth: sqrt of the
magnitude-weighted variance of frequency around the centroid. -/
def spectral_bandwidth (p : Prims) (magnitudes frequencies : List ℚ)
    (centroid : ℚ) : ℚ :=
  if magnitudes = [] ∨ frequencies = [] then 0
  else
    let min_len := min magnitudes.length frequencies.length
    let weighted_variance :=
      (((magnitudes.take min_len).zip frequencies).map fun mf =>
        mf.1 * (mf.2 - centroid) ^ 2).sum
    let total_magnitude := (magnitudes.take min_len).sum
    if total_magnitude < EPSILON then 0
    else p.sqrtF (weighted_variance / total_magnitude)

/-- The cumulative-sum scan of utils::fft::spectral_rolloff: the first
index (counting from i) whose running sum reaches the target, none if
the list is exhausted first. -/
def rolloff_loop (mags : List ℚ) (target cum : ℚ) (i : ℕ) : Option ℕ :=
  match mags with
  | [] => none
  | m :: rest =>
    let c := cum + m
    if c ≥ target then some i else rolloff_loop rest target c (i + 1)

/-- Embeds utils::fft::spectral_rolloff. -/
def spectral_rolloff (magnitudes : List ℚ) (rolloff_percent : ℚ) : ℕ :=
  if magnitudes = [] then 0
  else
    let total_energy := magnitudes.sum
    let target_energy := total_energy * clampQ rolloff_percent 0 1
    match rolloff_loop magnitudes target_energy 0 0 with
    | some i => i
    | none => magnitudes.length - 1

/-- Embeds sensors::result::SensorResult; the HashMap metadata is an
association list. -/
structure SensorResult where
  sensor_name : String
  passed : Option Bool
  value : ℚ
  threshold : ℚ
  reason : Option String
  detail : Option String
  metadata : List (String × String)
deriving DecidableEq

/-- Embeds SensorResult::new: all fields from the arguments, empty
metadata. -/
def SensorResult.new (sensor_name : String) (passed : Option Bool)
    (value threshold : ℚ) (reason detail : Option String) : SensorResult :=
  { sensor_name := sensor_name, passed := passed, value := value,
    threshold := threshold, reason := reason, detail := detail,
    metadata := [] }

/-- Embeds sensors::vacuum::VacuumSensor (threshold and name fields). -/
structure VacuumSensor where
  threshold : ℚ
  name : String
deriving DecidableEq

namespace VacuumSensor

/-- sensors::vacuum::DEFAULT_THRESHOLD. -/
def DEFAULT_THRESHOLD : ℚ := 7 / 10

/-- sensors::vacuum::FRAME_SIZE (25ms at 16kHz). -/
def FRAME_SIZE : ℕ := 400

/-- sensors::vacuum::HOP_SIZE (10ms at 16kHz). -/
def HOP_SIZE : ℕ := 160

/-- Embeds VacuumSensor::new: threshold defaulted then clamped to
[0, 1]. -/
def new (threshold : Option ℚ) : VacuumSensor :=
  let threshold_value := threshold.getD DEFAULT_THRESHOLD
  let clamped_threshold := clampQ threshold_value 0 1
  { threshold := clamped_threshold, name := "vacuum_sensor" }

/-- Per-frame features of the vacuum sensor
(sensors::vacuum::SpectralFeatures). -/
structure SpectralFeatures where
  centroid : ℚ
  bandwidth : ℚ
  rms : ℚ

/-- Embeds VacuumSensor::compute_stability_score: sample standard
deviation (divisor N-1) scored against the expected range. -/
def compute_stability_score (p : Prims) (values : List ℚ)
    (min_var max_var : ℚ) : ℚ :=
  if values.length < 2 then 1 / 2
  else
    let mean := values.sum / (values.length : ℚ)
    let variance :=
      ((values.map fun x => (x - mean) ^ 2).sum)
        / ((values.length - 1 : ℕ) : ℚ)
    let std_dev := p.sqrtF variance
    if std_dev < min_var then min (std_dev / min_var) 1
    else if std_dev > max_var then min (max_var / std_dev) 1
    else 1

/-- Embeds VacuumSensor::compute_smoothness_score: mean absolute
frame-to-frame centroid delta, penalised above 200 Hz. -/
def compute_smoothness_score (features : List SpectralFeatures) : ℚ :=
  if features.length < 2 then 1 / 2
  else
    let centroid_diffs :=
      (features.zip features.tail).map fun ab =>
        |ab.2.centroid - ab.1.centroid|
    if centroid_diffs = [] then 1 / 2
    else
      let mean_diff := centroid_diffs.sum / (centroid_diffs.length : ℚ)
      if mean_diff > 200 then min (200 / mean_diff) 1 else 1

/-- Embeds VacuumSensor::analyze_patterns: the 0.25-weighted
combination of the stability and smoothness sub-scores, clamped to
[0, 1]. -/
def analyze_patterns (p : Prims) (features : List SpectralFeatures) : ℚ :=
  if features.isEmpty then 1 / 2
  else
    let centroid_score :=
      compute_stability_score p (features.map (·.centroid)) 50 500
    let bandwidth_score :=
      compute_stability_score p (features.map (·.bandwidth)) 20 200
    let energy_score :=
      compute_stability_score p (features.map (·.rms)) (1 / 100) (1 / 2)
    let smoothness_score := compute_smoothness_score features
    let combined := 1 / 4 * centroid_score + 1 / 4 * bandwidth_score
      + 1 / 4 * energy_score + 1 / 4 * smoothness_score
    clampQ combined 0 1

/-- Embeds VacuumSensor::compute_sfm_score: frame, window, drop silent
frames, extract centroid/bandwidth/rms per frame, then score the
patterns; neutral 0.5 with no frames or fewer than 3 feature rows. -/
def compute_sfm_score (p : Prims) (audio : List ℚ) (sample_rate : ℕ) : ℚ :=
  let frame_size := sample_rate * FRAME_SIZE / 16000
  let hop_size := sample_rate * HOP_SIZE / 16000
  let frames := frame_audio audio frame_size hop_size
  if frames = [] then 1 / 2
  else
    let freq_resolution := (sample_rate : ℚ) / (frame_size : ℚ)
    let spectral_features := frames.filterMap fun frame =>
      let windowed := apply_hamming_window p frame
      let rms := calculate_rms p windowed
      if rms < 1 / 1000000 then none
      else
        match compute_fft p windowed with
        | .error _ => none
        | .ok fft_result =>
          let magnitudes := magnitude_spectrum p fft_result
          let freqs := (List.range magnitudes.length).map fun i =>
            (i : ℚ) * freq_resolution
          let centroid := spectral_centroid magnitudes freqs
          let bandwidth := spectral_bandwidth p magnitudes freqs centroid
          some { centroid := centroid, bandwidth := bandwidth, rms := rms }
    if spectral_features.length < 3 then 1 / 2
    else analyze_patterns p spectral_features

/-- Embeds VacuumSensor::analyze: validate (failures become a
validation_error result with value 0), else score, compare with the
threshold and build the result. -/
def analyze (p : Prims) (s : VacuumSensor) (audio : List F64)
    (sample_rate : ℕ) : SensorResult :=
  match validate_audio_input audio sample_rate with
  | .error e =>
    SensorResult.new s.name (some false) 0 s.threshold
      (some "validation_error")
      (some ("Input validation failed: " ++ e.toMessage))
  | .ok _ =>
    let authenticity_score :=
      compute_sfm_score p (audio.map F64.toRat) sample_rate
    let passed : Bool := authenticity_score ≥ s.threshold
    let detail :=
      if passed then
        "Source-filter model analysis passed (score: "
          ++ p.fmt2F authenticity_score ++ ")"
      else
        "Potential synthetic audio detected (score: "
          ++ p.fmt2F authenticity_score ++ ")"
    SensorResult.new s.name (some passed) authenticity_score s.threshold
      (if passed then none else some "sfm_anomaly") (some detail)

end VacuumSensor

/-- Embeds sensors::phase::PhaseSensor (threshold and name fields). -/
structure PhaseSensor where
  threshold : ℚ
  name : String
deriving DecidableEq

namespace PhaseSensor

/-- sensors::phase::DEFAULT_THRESHOLD. -/
def DEFAULT_THRESHOLD : ℚ := 65 / 100

/-- sensors::phase::FRAME_SIZE (32ms at 16kHz). -/
def FRAME_SIZE : ℕ := 512

/-- sensors::phase::HOP_SIZE (8ms at 16kHz). -/
def HOP_SIZE : ℕ := 128

/-- Embeds PhaseSensor::new: threshold defaulted then clamped to
[0, 1]. -/
def new (threshold : Option ℚ) : PhaseSensor :=
  let threshold_value := threshold.getD DEFAULT_THRESHOLD
  let clamped_threshold := clampQ threshold_value 0 1
  { threshold := clamped_threshold, name := "phase_sensor" }

/-- Embeds PhaseSensor::wrap_phase: reduce modulo 2*pi (float %, which
truncates toward zero), then shift by 2*pi when the remainder lies
outside [-pi, pi]. -/
def wrap_phase (phase : ℚ) : ℚ :=
  let two_pi := 2 * pi64
  let wrapped := fmodQ phase two_pi
  if wrapped > pi64 then wrapped - two_pi
  else if wrapped < -pi64 then wrapped + two_pi
  else wrapped

/-- Embeds PhaseSensor::compute_cross_frame_coherence: population
variance of the wrapped per-bin phase differences of each adjacent
frame pair (pairs with fewer than 10 shared bins skipped), averaged,
then scored against the 0.3 and 5.0 bounds. -/
def compute_cross_frame_coherence (phase_spectra : List (List ℚ)) : ℚ :=
  if phase_spectra.length < 2 then 1 / 2
  else
    let coherence_values :=
      (phase_spectra.zip phase_spectra.tail).filterMap fun pc =>
        let prev := pc.1
        let curr := pc.2
        let min_len := min prev.length curr.length
        if min_len < 10 then none
        else
          let phase_diffs :=
            ((prev.take min_len).zip curr).map fun pq =>
              wrap_phase (pq.2 - pq.1)
          let mean_diff := phase_diffs.sum / (phase_diffs.length : ℚ)
          let variance :=
            ((phase_diffs.map fun d => (d - mean_diff) ^ 2).sum)
              / (phase_diffs.length : ℚ)
          some variance
    if coherence_values = [] then 1 / 2
    else
      let mean_coherence :=
        coherence_values.sum / (coherence_values.length : ℚ)
      if mean_coherence < 3 / 10 then
        min (mean_coherence / (3 / 10)) 1 * (1 / 2)
      else if mean_coherence > 5 then min (5 / mean_coherence) 1 * (7 / 10)
      else 1

/-- Embeds PhaseSensor::compute_phase_derivative_score: mean absolute
second difference of the wrapped phases over each frame triple (triples
with fewer than 10 shared bins skipped), averaged, then scored against
the 0.1 and 2.0 bounds. -/
def compute_phase_derivative_score (phase_spectra : List (List ℚ)) : ℚ :=
  if phase_spectra.length < 3 then 1 / 2
  else
    let continuity_scores :=
      ((phase_spectra.zip phase_spectra.tail).zip
          phase_spectra.tail.tail).filterMap fun t =>
        let prev2 := t.1.1
        let prev1 := t.1.2
        let curr := t.2
        let min_len := min (min prev2.length prev1.length) curr.length
        if min_len < 10 then none
        else
          let accelerations := (List.range min_len).map fun j =>
            let d1 := wrap_phase (prev1.getD j 0 - prev2.getD j 0)
            let d2 := wrap_phase (curr.getD j 0 - prev1.getD j 0)
            |d2 - d1|
          let mean_accel :=
            accelerations.sum / (accelerations.length : ℚ)
          some mean_accel
    if continuity_scores = [] then 1 / 2
    else
      let mean_continuity :=
        continuity_scores.sum / (continuity_scores.length : ℚ)
      if mean_continuity < 1 / 10 then
        min (mean_continuity / (1 / 10)) 1 * (1 / 2)
      else if mean_continuity > 2 then
        min (2 / mean_continuity) 1 * (6 / 10)
      else 1

/-- Embeds PhaseSensor::compute_phase_randomness_score: for frames with
at least 20 bins, the absolute deviation from 0.5 of the mean
normalised phase of the upper third of bins, averaged across frames,
scored against the 0.3 bound. -/
def compute_phase_randomness_score (phase_spectra : List (List ℚ)) : ℚ :=
  if phase_spectra.isEmpty then 1 / 2
  else
    let phase_distributions :=
      phase_spectra.filterMap fun phases =>
        if phases.length < 20 then none
        else
          let high_freq_start := phases.length * 2 / 3
          let high_freq_phases := phases.drop high_freq_start
          let normalized := high_freq_phases.map fun ph =>
            (wrap_phase ph + pi64) / (2 * pi64)
          let mean := normalized.sum / (normalized.length : ℚ)
          some |mean - 1 / 2|
    if phase_distributions = [] then 1 / 2
    else
      let mean_deviation :=
        phase_distributions.sum / (phase_distributions.length : ℚ)
      if mean_deviation > 3 / 10 then
        min ((3 / 10) / mean_deviation) 1 * (7 / 10)
      else 1

/-- Embeds PhaseSensor::compute_phase_coherence_score: frame, window,
drop silent frames, take the phase spectrum of each surviving frame,
then combine the three sub-scores with weights 0.4/0.3/0.3 and clamp
to [0, 1]; neutral 0.5 with fewer than 2 frames or spectra. -/
def compute_phase_coherence_score (p : Prims) (audio : List ℚ)
    (sample_rate : ℕ) : ℚ :=
  let frame_size := sample_rate * FRAME_SIZE / 16000
  let hop_size := sample_rate * HOP_SIZE / 16000
  let frames := frame_audio audio frame_size hop_size
  if frames.length < 2 then 1 / 2
  else
    let phase_spectra := frames.filterMap fun frame =>
      let windowed := apply_hamming_window p frame
      let rms := calculate_rms p windowed
      if rms < 1 / 1000000 then none
      else
        match compute_fft p windowed with
        | .error _ => none
        | .ok fft_result => some (phase_spectrum p fft_result)
    if phase_spectra.length < 2 then 1 / 2
    else
      let coherence_score := compute_cross_frame_coherence phase_spectra
      let derivative_score := compute_phase_derivative_score phase_spectra
      let randomness_score := compute_phase_randomness_score phase_spectra
      let combined := 4 / 10 * coherence_score
        + 3 / 10 * derivative_score + 3 / 10 * randomness_score
      clampQ combined 0 1

/-- Embeds PhaseSensor::analyze: validate (failures become a
validation_error result with value 0), else score, compare with the
threshold and build the result. -/
def analyze (p : Prims) (s : PhaseSensor) (audio : List F64)
    (sample_rate : ℕ) : SensorResult :=
  match validate_audio_input audio sample_rate with
  | .error e =>
    SensorResult.new s.name (some false) 0 s.threshold
      (some "validation_error")
      (some ("Input validation failed: " ++ e.toMessage))
  | .ok _ =>
    let authenticity_score :=
      compute_phase_coherence_score p (audio.map F64.toRat) sample_rate
    let passed : Bool := authenticity_score ≥ s.threshold
    let detail :=
      if passed then
        "Phase coherence analysis passed (score: "
          ++ p.fmt2F authenticity_score ++ ")"
      else
        "Abnormal phase patterns detected (score: "
          ++ p.fmt2F authenticity_score ++ ")"
    SensorResult.new s.name (some passed) authenticity_score s.threshold
      (if passed then none else some "phase_anomaly") (some detail)

end PhaseSensor

/-- Embeds sensors::articulation::ArticulationSensor (threshold and
name fields). -/
structure ArticulationSensor where
  threshold : ℚ
  name : String
deriving DecidableEq

namespace ArticulationSensor

/-- sensors::articulation::DEFAULT_THRESHOLD. -/
def DEFAULT_THRESHOLD : ℚ := 6 / 10

/-- sensors::articulation::FRAME_SIZE (20ms at 16kHz). -/
def FRAME_SIZE : ℕ := 320

/-- sensors::articulation::HOP_SIZE (10ms at 16kHz). -/
def HOP_SIZE : ℕ := 160

/-- Embeds ArticulationSensor::new: threshold defaulted then clamped
to [0, 1]. -/
def new (threshold : Option ℚ) : ArticulationSensor :=
  let threshold_value := threshold.getD DEFAULT_THRESHOLD
  let clamped_threshold := clampQ threshold_value 0 1
  { threshold := clamped_threshold, name := "articulation_sensor" }

/-- Per-frame features of the articulation sensor
(sensors::articulation::FrameFeatures). -/
structure FrameFeatures where
  rms : ℚ
  zcr : ℚ
  centroid : ℚ
  rolloff_freq : ℚ
  spectral_flux : ℚ
  magnitudes : List ℚ

/-- Embeds ArticulationSensor::compute_spectral_flux: a placeholder 0,
overwritten by the batch pass. -/
def compute_spectral_flux (_magnitudes : List ℚ) : ℚ := 0

/-- Embeds ArticulationSensor::update_spectral_flux: for each frame
after the first, the Euclidean distance between its magnitude spectrum
and the previous one over their shared bin range. -/
def update_spectral_flux (p : Prims) (features : List FrameFeatures) :
    List FrameFeatures :=
  features.enum.map fun idxf =>
    let i := idxf.1
    let f := idxf.2
    if i = 0 then f
    else
      let fprev := features.getD (i - 1) f
      let min_len := min f.magnitudes.length fprev.magnitudes.length
      let flux := p.sqrtF
        ((((f.magnitudes.take min_len).zip fprev.magnitudes).map
          fun cp => (cp.1 - cp.2) ^ 2).sum)
      { f with spectral_flux := flux }

/-- Embeds ArticulationSensor::compute_transition_score: population
standard deviation of the absolute centroid deltas, scored against the
50 Hz and 500 Hz bounds. -/
def compute_transition_score (p : Prims) (features : List FrameFeatures) :
    ℚ :=
  if features.length < 2 then 1 / 2
  else
    let transition_rates :=
      (features.zip features.tail).map fun ab =>
        |ab.2.centroid - ab.1.centroid|
    if transition_rates = [] then 1 / 2
    else
      let mean_rate := transition_rates.sum / (transition_rates.length : ℚ)
      let variance :=
        ((transition_rates.map fun r => (r - mean_rate) ^ 2).sum)
          / (transition_rates.length : ℚ)
      let std_rate := p.sqrtF variance
      if std_rate < 50 then min (std_rate / 50) 1 * (6 / 10)
      else if std_rate > 500 then min (500 / std_rate) 1 * (7 / 10)
      else 1

/-- Embeds ArticulationSensor::compute_dynamics_score: dynamic range in
dB between the largest RMS and the smallest RMS above 1e-8, scored
against the 10 dB and 60 dB bounds. -/
def compute_dynamics_score (p : Prims) (features : List FrameFeatures) :
    ℚ :=
  if features.length < 3 then 1 / 2
  else
    let rms_values := features.map (·.rms)
    let max_rms := rms_values.foldl max 0
    let min_rms :=
      (rms_values.filter fun x => x > 1 / 100000000).foldl min f64MAX
    if max_rms < 1 / 100000000 then 1 / 2
    else
      let dynamic_range_db :=
        20 * p.log10F (max_rms / max min_rms (1 / 100000000))
      if dynamic_range_db < 10 then
        min (dynamic_range_db / 10) 1 * (1 / 2)
      else if dynamic_range_db > 60 then
        min (60 / dynamic_range_db) 1 * (8 / 10)
      else 1

/-- Embeds ArticulationSensor::compute_zcr_pattern_score: population
standard deviation of the zero-crossing rates, penalised below 0.05. -/
def compute_zcr_pattern_score (p : Prims) (features : List FrameFeatures) :
    ℚ :=
  if features.isEmpty then 1 / 2
  else
    let zcr_values := features.map (·.zcr)
    let mean_zcr := zcr_values.sum / (zcr_values.length : ℚ)
    let variance :=
      ((zcr_values.map fun z => (z - mean_zcr) ^ 2).sum)
        / (zcr_values.length : ℚ)
    let std_zcr := p.sqrtF variance
    if std_zcr < 5 / 100 then min (std_zcr / (5 / 100)) 1 * (6 / 10)
    else 1

/-- Embeds ArticulationSensor::compute_spectral_flux_pattern_score:
population standard deviation of the flux values (skipping the
undefined first one) relative to their mean. -/
def compute_spectral_flux_pattern_score (p : Prims)
    (features : List FrameFeatures) : ℚ :=
  if features.length < 2 then 1 / 2
  else
    let flux_values := features.tail.map (·.spectral_flux)
    if flux_values = [] then 1 / 2
    else
      let mean_flux := flux_values.sum / (flux_values.length : ℚ)
      let variance :=
        ((flux_values.map fun f => (f - mean_flux) ^ 2).sum)
          / (flux_values.length : ℚ)
      let std_flux := p.sqrtF variance
      if std_flux < mean_flux * (1 / 10) then 6 / 10
      else if std_flux > mean_flux * 3 then 7 / 10
      else 1

/-- Embeds ArticulationSensor::compute_articulation_score: frame,
window, drop silent frames, extract per-frame features, batch-update
the spectral flux, then combine the four sub-scores with weights
0.3/0.25/0.2/0.25 and clamp to [0, 1]; neutral 0.5 with fewer than 5
raw frames or fewer than 3 feature rows. -/
def compute_articulation_score (p : Prims) (audio : List ℚ)
    (sample_rate : ℕ) : ℚ :=
  let frame_size := sample_rate * FRAME_SIZE / 16000
  let hop_size := sample_rate * HOP_SIZE / 16000
  let frames := frame_audio audio frame_size hop_size
  if frames.length < 5 then 1 / 2
  else
    let frame_features := frames.filterMap fun frame =>
      let windowed := apply_hamming_window p frame
      let rms := calculate_rms p windowed
      if rms < 1 / 1000000 then none
      else
        let zcr := zero_crossing_rate windowed
        match compute_fft p windowed with
        | .error _ => none
        | .ok fft_result =>
          let magnitudes := magnitude_spectrum p fft_result
          let freqs := frequency_bins frame_size sample_rate
          let centroid := spectral_centroid magnitudes freqs
          let rolloff_idx := spectral_rolloff magnitudes (85 / 100)
          let rolloff_freq :=
            if rolloff_idx < freqs.length then freqs.getD rolloff_idx 0
            else freqs.getLastD 0
          let spectral_flux := compute_spectral_flux magnitudes
          some { rms := rms, zcr := zcr, centroid := centroid,
                 rolloff_freq := rolloff_freq,
                 spectral_flux := spectral_flux, magnitudes := magnitudes }
    if frame_features.length < 3 then 1 / 2
    else
      let updated := update_spectral_flux p frame_features
      let transition_score := compute_transition_score p updated
      let dynamics_score := compute_dynamics_score p updated
      let zcr_pattern_score := compute_zcr_pattern_score p updated
      let spectral_flux_score :=
        compute_spectral_flux_pattern_score p updated
      let combined := 3 / 10 * transition_score + 25 / 100 * dynamics_score
        + 2 / 10 * zcr_pattern_score + 25 / 100 * spectral_flux_score
      clampQ combined 0 1

/-- Embeds ArticulationSensor::analyze: validate (failures become a
validation_error result with value 0), else score, compare with the
threshold and build the result. -/
def analyze (p : Prims) (s : ArticulationSensor) (audio : List F64)
    (sample_rate : ℕ) : SensorResult :=
  match validate_audio_input audio sample_rate with
  | .error e =>
    SensorResult.new s.name (some false) 0 s.threshold
      (some "validation_error")
      (some ("Input validation failed: " ++ e.toMessage))
  | .ok _ =>
    let authenticity_score :=
      compute_articulation_score p (audio.map F64.toRat) sample_rate
    let passed : Bool := authenticity_score ≥ s.threshold
    let detail :=
      if passed then
        "Articulation pattern analysis passed (score: "
          ++ p.fmt2F authenticity_score ++ ")"
      else
        "Unnatural articulation patterns detected (score: "
          ++ p.fmt2F authenticity_score ++ ")"
    SensorResult.new s.name (some passed) authenticity_score s.threshold
      (if passed then none else some "articulation_anomaly") (some detail)

end ArticulationSensor

/-- A concrete interpretation of the primitive operations, used to
instantiate universally quantified theorems at closed inputs. -/
def zeroPrims : Prims :=
  { cosF := fun _ => 0, sqrtF := fun _ => 0, atan2F := fun _ _ => 0,
    log10F := fun _ => 0, fftF := fun _ => [], fmt2F := fun _ => "" }

lemma clampQ_unit (x : ℚ) : 0 ≤ clampQ x 0 1 ∧ clampQ x 0 1 ≤ 1 := by
  unfold clampQ
  split_ifs with h1 h2 <;> constructor <;> linarith

lemma VacuumSensor.analyze_patterns_unit (p : Prims)
    (features : List VacuumSensor.SpectralFeatures) :
    0 ≤ VacuumSensor.analyze_patterns p features
      ∧ VacuumSensor.analyze_patterns p features ≤ 1 := by
  unfold VacuumSensor.analyze_patterns
  split_ifs
  · norm_num
  · exact clampQ_unit _

lemma VacuumSensor.compute_sfm_score_unit (p : Prims) (audio : List ℚ)
    (sample_rate : ℕ) :
    0 ≤ VacuumSensor.compute_sfm_score p audio sample_rate
      ∧ VacuumSensor.compute_sfm_score p audio sample_rate ≤ 1 := by
  unfold VacuumSensor.compute_sfm_score
  dsimp only
  split_ifs
  · norm_num
  · norm_num
  · exact VacuumSensor.analyze_patterns_unit _ _

lemma PhaseSensor.compute_phase_coherence_score_unit (p : Prims)
    (audio : List ℚ) (sample_rate : ℕ) :
    0 ≤ PhaseSensor.compute_phase_coherence_score p audio sample_rate
      ∧ PhaseSensor.compute_phase_coherence_score p audio sample_rate ≤ 1 := by
  unfold PhaseSensor.compute_phase_coherence_score
  dsimp only
  split_ifs
  · norm_num
  · norm_num
  · exact clampQ_unit _

lemma ArticulationSensor.compute_articulation_score_unit (p : Prims)
    (audio : List ℚ) (sample_rate : ℕ) :
    0 ≤ ArticulationSensor.compute_articulation_score p audio sample_rate
      ∧ ArticulationSensor.compute_articulation_score p audio sample_rate
          ≤ 1 := by
  unfold ArticulationSensor.compute_articulation_score
  dsimp only
  split_ifs
  · norm_num
  · norm_num
  · exact clampQ_unit _

/-- Claim C1: for every audio buffer and sample rate that pass
validation, each of the three detectors returns a result whose value
(the authenticity score) lies in [0, 1]. -/
theorem C1_scores_in_unit_interval (p : Prims) (audio : List F64)
    (rate : ℕ) (s1 : VacuumSensor) (s2 : PhaseSensor)
    (s3 : ArticulationSensor)
    (hval : validate_audio_input audio rate = .ok ()) :
    (0 ≤ (VacuumSensor.analyze p s1 audio rate).value
      ∧ (VacuumSensor.analyze p s1 audio rate).value ≤ 1)
    ∧ (0 ≤ (PhaseSensor.analyze p s2 audio rate).value
      ∧ (PhaseSensor.analyze p s2 audio rate).value ≤ 1)
    ∧ (0 ≤ (ArticulationSensor.analyze p s3 audio rate).value
      ∧ (ArticulationSensor.analyze p s3 audio rate).value ≤ 1) := by
  refine ⟨?_, ?_, ?_⟩
  · unfold VacuumSensor.analyze
    rw [hval]
    simpa [SensorResult.new] using
      VacuumSensor.compute_sfm_score_unit p (audio.map F64.toRat) rate
  · unfold PhaseSensor.analyze
    rw [hval]
    simpa [SensorResult.new] using
      PhaseSensor.compute_phase_coherence_score_unit p
        (audio.map F64.toRat) rate
  · unfold ArticulationSensor.analyze
    rw [hval]
    simpa [SensorResult.new] using
      ArticulationSensor.compute_articulation_score_unit p
        (audio.map F64.toRat) rate

/-- A valid 8-sample buffer used to instantiate theorems with a
validation hypothesis. -/
def demoAudio : List F64 :=
  [.fin 1, .fin (-1), .fin 1, .fin (-1), .fin 1, .fin (-1), .fin 1,
    .fin (-1)]

/-- Witness for C1: a concrete valid input on which the bound holds. -/
theorem C1_witness :
    0 ≤ (VacuumSensor.analyze zeroPrims (VacuumSensor.new none) demoAudio
          16000).value
      ∧ (VacuumSensor.analyze zeroPrims (VacuumSensor.new none) demoAudio
          16000).value ≤ 1 :=
  (C1_scores_in_unit_interval zeroPrims demoAudio 16000
    (VacuumSensor.new none) (PhaseSensor.new none)
    (ArticulationSensor.new none) rfl).1

/-- Claim C2: every input that fails validation makes each detector
return normally with passed = some false, value = 0 and
reason = "validation_error". -/
theorem C2_validation_error_result (p : Prims) (audio : List F64)
    (rate : ℕ) (e : SensorError)
    (hval : validate_audio_input audio rate = .error e) :
    (∀ s : VacuumSensor,
      (VacuumSensor.analyze p s audio rate).passed = some false
      ∧ (VacuumSensor.analyze p s audio rate).value = 0
      ∧ (VacuumSensor.analyze p s audio rate).reason
          = some "validation_error")
    ∧ (∀ s : PhaseSensor,
      (PhaseSensor.analyze p s audio rate).passed = some false
      ∧ (PhaseSensor.analyze p s audio rate).value = 0
      ∧ (PhaseSensor.analyze p s audio rate).reason
          = some "validation_error")
    ∧ (∀ s : ArticulationSensor,
      (ArticulationSensor.analyze p s audio rate).passed = some false
      ∧ (ArticulationSensor.analyze p s audio rate).value = 0
      ∧ (ArticulationSensor.analyze p s audio rate).reason
          = some "validation_error") := by
  refine ⟨fun s => ?_, fun s => ?_, fun s => ?_⟩
  · unfold VacuumSensor.analyze
    rw [hval]
    simp [SensorResult.new]
  · unfold PhaseSensor.analyze
    rw [hval]
    simp [SensorResult.new]
  · unfold ArticulationSensor.analyze
    rw [hval]
    simp [SensorResult.new]

/-- Witness for C2: an empty buffer fails validation and each detector
reports it as a validation_error result. -/
theorem C2_witness :
    (VacuumSensor.analyze zeroPrims (VacuumSensor.new none) [] 16000).value
        = 0
      ∧ (VacuumSensor.analyze zeroPrims (VacuumSensor.new none) []
          16000).reason = some "validation_error" :=
  ⟨((C2_validation_error_result zeroPrims [] 16000
      (.InsufficientData 8 0) rfl).1 (VacuumSensor.new none)).2.1,
    ((C2_validation_error_result zeroPrims [] 16000
      (.InsufficientData 8 0) rfl).1 (VacuumSensor.new none)).2.2⟩

/-- Claim C4: construction clamps the threshold to [0, 1], the
defaults are 0.7 / 0.65 / 0.6 per detector, and analyze never changes
the threshold (the result always carries the constructed threshold). -/
theorem C4_threshold_clamped_and_stable :
    ((VacuumSensor.new none).threshold = 7 / 10
      ∧ (PhaseSensor.new none).threshold = 65 / 100
      ∧ (ArticulationSensor.new none).threshold = 6 / 10)
    ∧ (∀ t : ℚ, (VacuumSensor.new (some t)).threshold = clampQ t 0 1
      ∧ (PhaseSensor.new (some t)).threshold = clampQ t 0 1
      ∧ (ArticulationSensor.new (some t)).threshold = clampQ t 0 1)
    ∧ ((VacuumSensor.new (some (3 / 2))).threshold = 1
      ∧ (VacuumSensor.new (some (-(1 / 2)))).threshold = 0
      ∧ (PhaseSensor.new (some (3 / 2))).threshold = 1
      ∧ (PhaseSensor.new (some (-(1 / 2)))).threshold = 0
      ∧ (ArticulationSensor.new (some (3 / 2))).threshold = 1
      ∧ (ArticulationSensor.new (some (-(1 / 2)))).threshold = 0)
    ∧ (∀ (p : Prims) (s : VacuumSensor) (audio : List F64) (rate : ℕ),
        (VacuumSensor.analyze p s audio rate).threshold = s.threshold)
    ∧ (∀ (p : Prims) (s : PhaseSensor) (audio : List F64) (rate : ℕ),
        (PhaseSensor.analyze p s audio rate).threshold = s.threshold)
    ∧ (∀ (p : Prims) (s : ArticulationSensor) (audio : List F64)
        (rate : ℕ),
        (ArticulationSensor.analyze p s audio rate).threshold
          = s.threshold) := by
  refine ⟨⟨?_, ?_, ?_⟩, fun t => ⟨rfl, rfl, rfl⟩, ⟨?_, ?_, ?_, ?_, ?_, ?_⟩,
    fun p s audio rate => ?_, fun p s audio rate => ?_,
    fun p s audio rate => ?_⟩
  · norm_num [VacuumSensor.new, VacuumSensor.DEFAULT_THRESHOLD, clampQ]
  · norm_num [PhaseSensor.new, PhaseSensor.DEFAULT_THRESHOLD, clampQ]
  · norm_num [ArticulationSensor.new, ArticulationSensor.DEFAULT_THRESHOLD,
      clampQ]
  · norm_num [VacuumSensor.new, clampQ]
  · norm_num [VacuumSensor.new, clampQ]
  · norm_num [PhaseSensor.new, clampQ]
  · norm_num [PhaseSensor.new, clampQ]
  · norm_num [ArticulationSensor.new, clampQ]
  · norm_num [ArticulationSensor.new, clampQ]
  · unfold VacuumSensor.analyze
    cases hval : validate_audio_input audio rate <;>
      simp [SensorResult.new]
  · unfold PhaseSensor.analyze
    cases hval : validate_audio_input audio rate <;>
      simp [SensorResult.new]
  · unfold ArticulationSensor.analyze
    cases hval : validate_audio_input audio rate <;>
      simp [SensorResult.new]

/-- Claim C5: analyze is deterministic and carries no state between
calls: two calls with identical input on the same detector instance
yield identical results. -/
theorem C5_analyze_deterministic (p : Prims) (audio audio2 : List F64)
    (rate rate2 : ℕ) (ha : audio = audio2) (hr : rate = rate2) :
    (∀ s : VacuumSensor,
      VacuumSensor.analyze p s audio rate
        = VacuumSensor.analyze p s audio2 rate2)
    ∧ (∀ s : PhaseSensor,
      PhaseSensor.analyze p s audio rate
        = PhaseSensor.analyze p s audio2 rate2)
    ∧ (∀ s : ArticulationSensor,
      ArticulationSensor.analyze p s audio rate
        = ArticulationSensor.analyze p s audio2 rate2) := by
  subst ha
  subst hr
  exact ⟨fun _ => rfl, fun _ => rfl, fun _ => rfl⟩

/-- Witness for C5: the two calls agree on a concrete input. -/
theorem C5_witness :
    VacuumSensor.analyze zeroPrims (VacuumSensor.new none) demoAudio 16000
      = VacuumSensor.analyze zeroPrims (VacuumSensor.new none) demoAudio
          16000 :=
  (C5_analyze_deterministic zeroPrims demoAudio demoAudio 16000 16000
    rfl rfl).1 (VacuumSensor.new none)

/-- Counterexample for C6: on a frame of length 1 the Hamming window
returns a result of length 1 (the single sample scaled by
0.54 - 0.46*cos(0/0) in the embedding), not the claimed length-0
result. -/
theorem C6_counterexample :
    (apply_hamming_window zeroPrims [1]).length = 1 := by
  rfl

/-- Claim C6 (amended): the Hamming window returns an empty result for
a length-0 frame, and for every frame of length n >= 1 — including
n = 1, where the cosine argument divides by N-1 = 0 — a result of
exactly length n; there is no length-1 guard. -/
theorem C6_hamming_window_length :
    (∀ (p : Prims) (audio : List ℚ),
      (apply_hamming_window p audio).length = audio.length)
    ∧ ∀ p : Prims, apply_hamming_window p ([] : List ℚ) = [] := by
  constructor
  · intro p audio
    unfold apply_hamming_window
    split_ifs with h
    · simp [h]
    · simp
  · intro p
    rfl

lemma pi64_pos : (0 : ℚ) < pi64 := by norm_num [pi64]

lemma two_pi64_ne : (2 * pi64 : ℚ) ≠ 0 := by norm_num [pi64]

lemma truncQ_zero : truncQ (0 : ℚ) = 0 := by unfold truncQ; norm_num

lemma truncQ_half : truncQ (1 / 2 : ℚ) = 0 := by unfold truncQ; norm_num

lemma truncQ_one : truncQ (1 : ℚ) = 1 := by unfold truncQ; norm_num

lemma truncQ_three_halves : truncQ (3 / 2 : ℚ) = 1 := by
  unfold truncQ; norm_num

lemma truncQ_neg_half : truncQ (-(1 / 2) : ℚ) = 0 := by
  unfold truncQ; norm_num

lemma fmodQ_factor (k b : ℚ) (hb : b ≠ 0) :
    fmodQ (k * b) b = (k - (truncQ k : ℚ)) * b := by
  unfold fmodQ
  rw [mul_div_cancel_right₀ _ hb]
  ring

lemma fmodQ_bounds (a b : ℚ) (hb : 0 < b) :
    -b < fmodQ a b ∧ fmodQ a b < b := by
  unfold fmodQ truncQ
  have hab : a = b * (a / b) := by field_simp
  split_ifs with h
  · have h1 : ((⌊a / b⌋ : ℚ)) ≤ a / b := Int.floor_le _
    have h2 : a / b < ⌊a / b⌋ + 1 := Int.lt_floor_add_one _
    constructor <;> nlinarith [hb, hab, h1, h2]
  · have h1 : a / b ≤ (⌈a / b⌉ : ℚ) := Int.le_ceil _
    have h2 : (⌈a / b⌉ : ℚ) < a / b + 1 := Int.ceil_lt_add_one _
    constructor <;> nlinarith [hb, hab, h1, h2]

lemma wrap_phase_fmod (phase : ℚ) :
    PhaseSensor.wrap_phase phase =
      if fmodQ phase (2 * pi64) > pi64 then fmodQ phase (2 * pi64) - 2 * pi64
      else if fmodQ phase (2 * pi64) < -pi64 then
        fmodQ phase (2 * pi64) + 2 * pi64
      else fmodQ phase (2 * pi64) := rfl

lemma fmodQ_neg_pi : fmodQ (-pi64) (2 * pi64) = -pi64 := by
  have h := fmodQ_factor (-(1 / 2)) (2 * pi64) two_pi64_ne
  rw [truncQ_neg_half] at h
  rw [show (-(1 / 2) : ℚ) * (2 * pi64) = -pi64 by ring] at h
  rw [h]
  push_cast
  ring

/-- Counterexample for C7: at the angle -pi the phase-wrap function
returns -pi itself, which lies outside the claimed half-open interval
(-pi, pi]. -/
theorem C7_counterexample : ¬ (-pi64 < PhaseSensor.wrap_phase (-pi64)) := by
  rw [wrap_phase_fmod, fmodQ_neg_pi]
  have hpi := pi64_pos
  split_ifs with h1 h2 <;> linarith

/-- Claim C7 (amended): the phase-wrap function maps every angle into
the closed interval [-pi, pi] via modulo-2pi with boundary correction
(the boundary -pi is attainable: wrap(-pi) = -pi); in particular
wrap(0) = 0, wrap(pi) = pi, wrap(2pi) = 0 and wrap(3pi) = pi (it wraps
downward to pi, never to -pi, for positive odd multiples of pi). -/
theorem C7_wrap_phase_range :
    (∀ phase : ℚ, -pi64 ≤ PhaseSensor.wrap_phase phase
      ∧ PhaseSensor.wrap_phase phase ≤ pi64)
    ∧ PhaseSensor.wrap_phase 0 = 0
    ∧ PhaseSensor.wrap_phase pi64 = pi64
    ∧ PhaseSensor.wrap_phase (2 * pi64) = 0
    ∧ PhaseSensor.wrap_phase (3 * pi64) = pi64
    ∧ PhaseSensor.wrap_phase (-pi64) = -pi64 := by
  have hpi := pi64_pos
  refine ⟨fun phase => ?_, ?_, ?_, ?_, ?_, ?_⟩
  · have hb : (0 : ℚ) < 2 * pi64 := by linarith
    obtain ⟨h1, h2⟩ := fmodQ_bounds phase (2 * pi64) hb
    rw [wrap_phase_fmod]
    split_ifs with ha hb2 <;> constructor <;> linarith
  · have hm : fmodQ 0 (2 * pi64) = 0 := by
      have h := fmodQ_factor 0 (2 * pi64) two_pi64_ne
      rw [truncQ_zero] at h
      rw [show (0 : ℚ) * (2 * pi64) = 0 by ring] at h
      rw [h]
      push_cast
      ring
    rw [wrap_phase_fmod, hm]
    split_ifs with h1 h2 <;> linarith
  · have hm : fmodQ pi64 (2 * pi64) = pi64 := by
      have h := fmodQ_factor (1 / 2) (2 * pi64) two_pi64_ne
      rw [truncQ_half] at h
      rw [show (1 / 2 : ℚ) * (2 * pi64) = pi64 by ring] at h
      rw [h]
      push_cast
      ring
    rw [wrap_phase_fmod, hm]
    split_ifs with h1 h2 <;> linarith
  · have hm : fmodQ (2 * pi64) (2 * pi64) = 0 := by
      have h := fmodQ_factor 1 (2 * pi64) two_pi64_ne
      rw [truncQ_one] at h
      rw [one_mul] at h
      rw [h]
      push_cast
      ring
    rw [wrap_phase_fmod, hm]
    split_ifs with h1 h2 <;> linarith
  · have hm : fmodQ (3 * pi64) (2 * pi64) = pi64 := by
      have h := fmodQ_factor (3 / 2) (2 * pi64) two_pi64_ne
      rw [truncQ_three_halves] at h
      rw [show (3 / 2 : ℚ) * (2 * pi64) = 3 * pi64 by ring] at h
      rw [h]
      push_cast
      ring
    rw [wrap_phase_fmod, hm]
    split_ifs with h1 h2 <;> linarith
  · rw [wrap_phase_fmod, fmodQ_neg_pi]
    split_ifs with h1 h2 <;> linarith

lemma frame_loop_get (audio : List ℚ) (fs hs : ℕ) (hpos : 0 < hs) (i : ℕ) :
    ∀ start, (frame_loop audio fs hs hpos start).get? i =
      if start + i * hs + fs ≤ audio.length then
        some ((audio.drop (start + i * hs)).take fs)
      else none := by
  induction i with
  | zero =>
    intro start
    rw [frame_loop]
    simp only [Nat.zero_mul, Nat.add_zero]
    by_cases h : start + fs ≤ audio.length
    · rw [dif_pos h, if_pos h]
      rfl
    · rw [dif_neg h, if_neg h]
      rfl
  | succ i ih =>
    intro start
    rw [frame_loop]
    by_cases h : start + fs ≤ audio.length
    · rw [dif_pos h, List.get?_cons_succ, ih (start + hs)]
      rw [show start + hs + i * hs = start + (i + 1) * hs by ring]
    · rw [dif_neg h, if_neg (by omega)]
      rfl

lemma frame_loop_length (audio : List ℚ) (fs hs : ℕ) (hpos : 0 < hs)
    (start : ℕ) (h : start + fs ≤ audio.length) :
    (frame_loop audio fs hs hpos start).length
      = (audio.length - fs - start) / hs + 1 := by
  have hq : (audio.length - fs - start) / hs * hs
      + (audio.length - fs - start) % hs = audio.length - fs - start := by
    rw [Nat.mul_comm]
    exact Nat.div_add_mod _ _
  have hr := Nat.mod_lt (audio.length - fs - start) hpos
  set L := (frame_loop audio fs hs hpos start).length with hL
  set q := (audio.length - fs - start) / hs with hqdef
  have hchar : ∀ i, (i < L) ↔ start + i * hs + fs ≤ audio.length := by
    intro i
    constructor
    · intro hi
      have hthis := frame_loop_get audio fs hs hpos i start
      rcases Nat.lt_or_ge (audio.length) (start + i * hs + fs) with hlt | hge
      · rw [if_neg (by omega)] at hthis
        rw [List.get?_eq_none] at hthis
        omega
      · omega
    · intro hle
      have hthis := frame_loop_get audio fs hs hpos i start
      rw [if_pos hle] at hthis
      by_contra hcon
      have hnone : (frame_loop audio fs hs hpos start).get? i = none :=
        List.get?_eq_none.mpr (by omega)
      simp_all
  have h1 : q < L := by
    rw [hchar q]
    omega
  have hupper : ¬ (q + 1 < L) := by
    rw [hchar (q + 1)]
    rw [show (q + 1) * hs = q * hs + hs by ring]
    omega
  omega

/-- Claim C3: for positive frame and hop sizes with enough audio,
frame_audio returns exactly floor((len - frame_size) / hop_size) + 1
frames, in order, frame i being the slice starting at i * hop_size of
length exactly frame_size; with a zero frame size, a zero hop size, or
too little audio it returns the empty sequence. -/
theorem C3_frame_audio_spec (audio : List ℚ) (fs hs : ℕ) :
    ((fs = 0 ∨ hs = 0 ∨ audio.length < fs) → frame_audio audio fs hs = [])
    ∧ (0 < fs → 0 < hs → fs ≤ audio.length →
      (frame_audio audio fs hs).length = (audio.length - fs) / hs + 1
      ∧ ∀ i < (audio.length - fs) / hs + 1,
          (frame_audio audio fs hs).get? i
              = some ((audio.drop (i * hs)).take fs)
            ∧ ((audio.drop (i * hs)).take fs).length = fs) := by
  constructor
  · intro h
    unfold frame_audio
    rw [dif_pos h]
  · intro hfs hhs hlen
    have hnot : ¬ (fs = 0 ∨ hs = 0 ∨ audio.length < fs) := by omega
    unfold frame_audio
    rw [dif_neg hnot]
    constructor
    · have hlenq := frame_loop_length audio fs hs (by omega) 0 (by omega)
      simpa using hlenq
    · intro i hi
      have hile : i * hs ≤ audio.length - fs := by
        have h1 : i ≤ (audio.length - fs) / hs := by omega
        calc i * hs ≤ (audio.length - fs) / hs * hs :=
              Nat.mul_le_mul_right _ h1
          _ ≤ audio.length - fs := Nat.div_mul_le_self _ _
      have hget := frame_loop_get audio fs hs (by omega) i 0
      rw [show (0 : ℕ) + i * hs = i * hs by omega] at hget
      constructor
      · rw [hget, if_pos (by omega)]
      · rw [List.length_take, List.length_drop]
        omega

/-- A concrete ten-sample buffer for the framing witness. -/
def demoList : List ℚ := [0, 1, 2, 3, 4, 5, 6, 7, 8, 9]

/-- Witness for C3: framing the buffer 0..9 with frame size 4 and hop
2 yields 4 frames whose second is [2,3,4,5], and framing a 2-sample
buffer with frame size 4 yields nothing. -/
theorem C3_witness :
    (frame_audio demoList 4 2).length = 4
    ∧ (frame_audio demoList 4 2).get? 1 = some [2, 3, 4, 5]
    ∧ frame_audio [1, 2] 4 2 = [] := by
  have h := (C3_frame_audio_spec demoList 4 2).2 (by norm_num) (by norm_num)
    (by norm_num [demoList])
  refine ⟨?_, ?_, ?_⟩
  · rw [h.1]
    norm_num [demoList]
  · rw [(h.2 1 (by norm_num [demoList])).1]
    rfl
  · exact (C3_frame_audio_spec [1, 2] 4 2).1 (by norm_num)

lemma rolloff_loop_cases (ms : List ℚ) (t : ℚ) : ∀ (c : ℚ) (i : ℕ),
    (∃ k, k < ms.length ∧ rolloff_loop ms t c i = some (i + k)
      ∧ t ≤ c + (ms.take (k + 1)).sum
      ∧ ∀ l < k, c + (ms.take (l + 1)).sum < t)
    ∨ (rolloff_loop ms t c i = none
      ∧ ∀ k < ms.length, c + (ms.take (k + 1)).sum < t) := by
  induction ms with
  | nil =>
    intro c i
    right
    exact ⟨rfl, by simp⟩
  | cons m rest ih =>
    intro c i
    by_cases h : c + m ≥ t
    · left
      refine ⟨0, by simp, ?_, by simpa using h, by simp⟩
      simp [rolloff_loop, h]
    · rcases ih (c + m) (i + 1) with ⟨k, hk, heq, hge, hlt⟩ | ⟨heq, hall⟩
      · left
        refine ⟨k + 1, by simpa using hk, ?_, ?_, ?_⟩
        · show rolloff_loop (m :: rest) t c i = some (i + (k + 1))
          simp only [rolloff_loop, if_neg h]
          rw [heq]
          congr 1
          omega
        · simpa [add_assoc] using hge
        · intro l hl
          cases l with
          | zero => simpa using lt_of_not_ge h
          | succ l' =>
            have hthis := hlt l' (by omega)
            simpa [add_assoc] using hthis
      · right
        constructor
        · simp only [rolloff_loop, if_neg h]
          exact heq
        · intro k hk
          cases k with
          | zero => simpa using lt_of_not_ge h
          | succ k' =>
            have hthis := hall k' (by simpa using hk)
            simpa [add_assoc] using hthis

/-- Claim C8: for a non-empty magnitude list, spectral_rolloff returns
the smallest bin index whose cumulative magnitude sum reaches
clamp(fraction, 0, 1) times the total, the last index if the target is
never reached; on [0.1, 0.2, 0.3, 0.4] at fraction 0.6 it returns 2. -/
theorem C8_spectral_rolloff_spec (mags : List ℚ) (frac : ℚ)
    (hne : mags ≠ []) :
    (∀ j < spectral_rolloff mags frac,
      (mags.take (j + 1)).sum < mags.sum * clampQ frac 0 1)
    ∧ (mags.sum * clampQ frac 0 1
          ≤ (mags.take (spectral_rolloff mags frac + 1)).sum
      ∨ (spectral_rolloff mags frac = mags.length - 1
        ∧ ∀ k < mags.length,
            (mags.take (k + 1)).sum < mags.sum * clampQ frac 0 1))
    ∧ spectral_rolloff mags frac < mags.length
    ∧ spectral_rolloff ([1 / 10, 2 / 10, 3 / 10, 4 / 10] : List ℚ)
        (6 / 10) = 2 := by
  have hpos : 0 < mags.length := List.length_pos.mpr hne
  have hex : spectral_rolloff ([1 / 10, 2 / 10, 3 / 10, 4 / 10] : List ℚ)
      (6 / 10) = 2 := by
    simp only [spectral_rolloff, rolloff_loop, clampQ]
    norm_num
    simp
  unfold spectral_rolloff
  rw [if_neg hne]
  dsimp only
  rcases rolloff_loop_cases mags (mags.sum * clampQ frac 0 1) 0 0 with
    ⟨k, hk, heq, hge, hlt⟩ | ⟨heq, hall⟩
  · rw [heq]
    simp only [Nat.zero_add] at *
    refine ⟨fun j hj => by simpa using hlt j hj, Or.inl (by simpa using hge),
      hk, hex⟩
  · rw [heq]
    have hred : (match (none : Option ℕ) with
        | some i => i
        | none => mags.length - 1) = mags.length - 1 := rfl
    rw [hred]
    refine ⟨fun j hj => by simpa using hall j (by omega),
      Or.inr ⟨rfl, fun j hj => by simpa using hall j hj⟩, by omega, hex⟩

/-- Witness for C8: the theorem applied to the concrete magnitude list
of the claim. -/
theorem C8_witness :
    spectral_rolloff ([1 / 10, 2 / 10, 3 / 10, 4 / 10] : List ℚ) (6 / 10)
      = 2 :=
  (C8_spectral_rolloff_spec [1] 1 (by norm_num)).2.2.2

lemma zip_tail_countP (l : List ℚ) :
    (l.zip l.tail).countP (fun w => decide (0 ≤ w.1) != decide (0 ≤ w.2))
      = (List.range (l.length - 1)).countP
          (fun i => decide (0 ≤ l.getD i 0)
            != decide (0 ≤ l.getD (i + 1) 0)) := by
  induction l with
  | nil => rfl
  | cons x t ih =>
    cases t with
    | nil => rfl
    | cons y rest =>
      simp only [List.tail_cons, List.zip_cons_cons, List.countP_cons,
        List.length_cons]
      rw [show (rest.length + 1 + 1 - 1) = rest.length + 1 by omega,
        List.range_succ_eq_map, List.countP_cons, List.countP_map]
      have hshift :
          ((fun i => decide (0 ≤ (x :: y :: rest).getD i 0)
              != decide (0 ≤ (x :: y :: rest).getD (i + 1) 0)) ∘ Nat.succ)
            = fun i => decide (0 ≤ (y :: rest).getD i 0)
              != decide (0 ≤ (y :: rest).getD (i + 1) 0) := by
        funext i
        rfl
      rw [hshift]
      have hrec := ih
      simp only [List.tail_cons, List.length_cons] at hrec
      rw [show (rest.length + 1 - 1 : ℕ) = rest.length by omega] at hrec
      rw [show (decide (0 ≤ (x :: y :: rest).getD 0 0)
          != decide (0 ≤ (x :: y :: rest).getD (0 + 1) 0))
        = (decide (0 ≤ x) != decide (0 ≤ y)) from rfl]
      omega

/-- Claim C9: for a frame with at least 2 samples the zero-crossing
rate is the number of adjacent index pairs whose non-negativity
(sample >= 0, so an exact 0 counts as non-negative) differs, divided by
length - 1, a value in [0, 1]; shorter frames give 0; and
zcr([1,-1,1,-1]) = 1. -/
theorem C9_zero_crossing_rate_spec (audio : List ℚ) :
    (audio.length < 2 → zero_crossing_rate audio = 0)
    ∧ (2 ≤ audio.length →
        zero_crossing_rate audio =
          (((List.range (audio.length - 1)).countP fun i =>
            decide (0 ≤ audio.getD i 0)
              != decide (0 ≤ audio.getD (i + 1) 0)) : ℚ)
            / ((audio.length - 1 : ℕ) : ℚ)
        ∧ 0 ≤ zero_crossing_rate audio ∧ zero_crossing_rate audio ≤ 1)
    ∧ zero_crossing_rate [1, -1, 1, -1] = 1 := by
  refine ⟨fun h => ?_, fun h => ?_, ?_⟩
  · unfold zero_crossing_rate
    rw [if_pos h]
  · have hne : ¬ (audio.length < 2) := by omega
    have hd : (0 : ℚ) < ((audio.length - 1 : ℕ) : ℚ) := by
      exact_mod_cast (by omega : 0 < audio.length - 1)
    unfold zero_crossing_rate
    rw [if_neg hne]
    dsimp only
    rw [zip_tail_countP]
    refine ⟨rfl, div_nonneg (by positivity) hd.le, ?_⟩
    rw [div_le_one hd]
    have hcount : (List.range (audio.length - 1)).countP
        (fun i => decide (0 ≤ audio.getD i 0)
          != decide (0 ≤ audio.getD (i + 1) 0)) ≤ audio.length - 1 := by
      calc (List.range (audio.length - 1)).countP _
          ≤ (List.range (audio.length - 1)).length :=
            List.countP_le_length _
        _ = audio.length - 1 := List.length_range _
    exact_mod_cast hcount
  · simp only [zero_crossing_rate]
    norm_num [List.zip, List.zipWith, List.countP, List.countP.go]

/-- Witness for C9: the bounds hold on the concrete frame
[1, -1, 1, -1]. -/
theorem C9_witness :
    0 ≤ zero_crossing_rate ([1, -1, 1, -1] : List ℚ)
    ∧ zero_crossing_rate ([1, -1, 1, -1] : List ℚ) ≤ 1 :=
  ⟨((C9_zero_crossing_rate_spec [1, -1, 1, -1]).2.1 (by simp)).2.1,
    ((C9_zero_crossing_rate_spec [1, -1, 1, -1]).2.1 (by simp)).2.2⟩

lemma validate_scan_first (l : List F64) : ∀ (i k : ℕ) (s : F64),
    l.get? k = some s →
    (∀ j < k, ∀ u, l.get? j = some u →
      u.isNan = false ∧ u.isInfinite = false) →
    (s.isNan = true →
      validate_scan l i
        = .error (.InvalidInput ("NaN value at sample " ++ toString (i + k))))
    ∧ (s.isNan = false → s.isInfinite = true →
      validate_scan l i
        = .error (.InvalidInput
            ("Infinite value at sample " ++ toString (i + k)))) := by
  induction l with
  | nil =>
    intro i k s hget _
    simp at hget
  | cons u rest ih =>
    intro i k s hget hprev
    cases k with
    | zero =>
      simp only [List.get?_cons_zero, Option.some_inj] at hget
      subst hget
      constructor
      · intro hnan
        unfold validate_scan
        rw [if_pos hnan, Nat.add_zero]
      · intro hnn hinf
        unfold validate_scan
        rw [if_neg (by simp [hnn]), if_pos hinf, Nat.add_zero]
    | succ k' =>
      have hu := hprev 0 (by omega) u (by rfl)
      have hrec := ih (i + 1) k' s (by simpa using hget)
        (fun j hj u' hu' => hprev (j + 1) (by omega) u' (by simpa using hu'))
      constructor
      · intro hnan
        unfold validate_scan
        rw [if_neg (by simp [hu.1]), if_neg (by simp [hu.2])]
        rw [show i + (k' + 1) = i + 1 + k' by omega]
        exact hrec.1 hnan
      · intro hnn hinf
        unfold validate_scan
        rw [if_neg (by simp [hu.1]), if_neg (by simp [hu.2])]
        rw [show i + (k' + 1) = i + 1 + k' by omega]
        exact hrec.2 hnn hinf

/-- Claim C10: validation applies its checks in a fixed priority order:
sample-rate bounds first, then minimum length, then a left-to-right
per-sample finiteness scan (NaN reported as NaN, infinity as infinite,
at the first offending index), so with several violations the error is
the first by this order. -/
theorem C10_validation_priority :
    (∀ (audio : List F64) (rate : ℕ),
      rate < MIN_SAMPLE_RATE ∨ rate > MAX_SAMPLE_RATE →
      validate_audio_input audio rate = .error (.InvalidSampleRate rate))
    ∧ (∀ (audio : List F64) (rate : ℕ),
      MIN_SAMPLE_RATE ≤ rate → rate ≤ MAX_SAMPLE_RATE →
      audio.length < MIN_SAMPLES →
      validate_audio_input audio rate
        = .error (.InsufficientData MIN_SAMPLES audio.length))
    ∧ (∀ (audio : List F64) (rate : ℕ) (i : ℕ) (s : F64),
      MIN_SAMPLE_RATE ≤ rate → rate ≤ MAX_SAMPLE_RATE →
      MIN_SAMPLES ≤ audio.length →
      audio.get? i = some s →
      (∀ j < i, ∀ u, audio.get? j = some u →
        u.isNan = false ∧ u.isInfinite = false) →
      (s.isNan = true →
        validate_audio_input audio rate
          = .error (.InvalidInput ("NaN value at sample " ++ toString i)))
      ∧ (s.isNan = false → s.isInfinite = true →
        validate_audio_input audio rate
          = .error (.InvalidInput
              ("Infinite value at sample " ++ toString i)))) := by
  refine ⟨fun audio rate h => ?_, fun audio rate h1 h2 h3 => ?_,
    fun audio rate i s h1 h2 h3 hget hprev => ?_⟩
  · unfold validate_audio_input
    rw [if_pos h]
  · unfold validate_audio_input
    rw [if_neg (not_or.mpr ⟨not_lt.mpr h1, not_lt.mpr h2⟩), if_pos h3]
  · unfold validate_audio_input
    rw [if_neg (not_or.mpr ⟨not_lt.mpr h1, not_lt.mpr h2⟩),
      if_neg (not_lt.mpr h3)]
    have hfirst := validate_scan_first audio 0 i s hget hprev
    simpa using hfirst

/-- Witness for C10: a 3-sample buffer containing NaN at sample rate
100 is rejected as InvalidSampleRate, not InsufficientData or
InvalidInput. -/
theorem C10_witness :
    validate_audio_input [F64.nan, F64.fin 0, F64.fin 0] 100
      = .error (.InvalidSampleRate 100) :=
  C10_validation_priority.1 [F64.nan, F64.fin 0, F64.fin 0] 100
    (by decide)
